import Mathlib

/-!
Shallow embedding of `src/ContentUnderstanding.py` (Azure Content
Understanding invoice-analysis script).

Modelling conventions:
* Decoded JSON values (the result of Python `json.loads` / `resp.json()`)
  are modelled by the inductive `Json`.  Python `None` and JSON `null`
  coincide after decoding, so both are `Json.null`.  JSON numbers decode to
  Python `int` or `float`; the two are kept apart (`Json.int` / `Json.float`)
  because `str()` renders them differently.  A `float` is modelled as the
  exact rational value of its decimal literal; the script does no float
  arithmetic, so this is faithful for every value it ever prints.
* Python `dict` semantics (`.get`, `.items()`, `.keys()`, truthiness,
  `len`, subscripting) are embedded by `pyGet`, `pyItems`, `pyKeys`,
  `pyTruthy`, `pyLen`, `pySub0`; each raises the same exception class the
  interpreter would (AttributeError on `.get` of a non-dict, TypeError on
  `len` of a number, ...).  JSON objects are association lists in document
  order with distinct keys, which is how `json.loads` presents them.
* Side effects (`print`, file writes, file appends) are recorded as an
  `Event` trace; `time.sleep` calls and HTTP GETs inside the poll loop are
  counted.  Wall-clock time and the progress line `Status: ... (Ns elapsed)`
  printed by the poller are observability-only and are not modelled.
* `resp.raise_for_status()` (the `requests` library) raises exactly for
  status codes `400 ≤ c < 600`.
* Header lookup models the case-insensitive header dictionary of `requests`.
* "A header / cached token is present" is read the way the code itself
  tests it: Python truthiness, i.e. a non-`None`, non-empty string.
-/

namespace ContentUnderstanding

/-- A decoded JSON value, as produced by Python `json.loads`. -/
inductive Json where
  | null : Json
  | bool (b : Bool) : Json
  | int (n : Int) : Json
  | float (q : Rat) : Json
  | str (s : String) : Json
  | arr (xs : List Json) : Json
  | obj (kvs : List (String × Json)) : Json

/-- Python exception classes that the script can raise. -/
inductive PyErr where
  | attributeError : PyErr
  | typeError : PyErr
  | keyError : PyErr
  | indexError : PyErr
  | httpError (status : Nat) (body : String) : PyErr
  | runtimeError (msg : String) : PyErr
deriving DecidableEq

/-- An observable side effect of running the script. -/
inductive Event where
  | print (s : String) : Event
  | writeFile (path content : String) : Event
  | appendFile (path content : String) : Event
deriving DecidableEq

/-- Python truthiness of a decoded JSON value. -/
def pyTruthy : Json → Bool
  | .null => false
  | .bool b => b
  | .int n => n != 0
  | .float q => q != 0
  | .str s => s != ""
  | .arr xs => !xs.isEmpty
  | .obj kvs => !kvs.isEmpty

/-- First-occurrence lookup in an association list (Python dict lookup;
`json.loads` yields dicts with distinct keys in document order). -/
def assocGet : List (String × Json) → String → Option Json
  | [], _ => none
  | (k, v) :: rest, key => if k = key then some v else assocGet rest key

/-- Python `d.get(key, default)`: raises AttributeError when `d` is not a
dict. -/
def pyGet (d : Json) (key : String) (default : Json) : Except PyErr Json :=
  match d with
  | .obj kvs => .ok ((assocGet kvs key).getD default)
  | _ => .error .attributeError

/-- Python `len(x)` on a decoded JSON value. -/
def pyLen : Json → Except PyErr Nat
  | .str s => .ok s.length
  | .arr xs => .ok xs.length
  | .obj kvs => .ok kvs.length
  | _ => .error .typeError

/-- Python `x[0]` on a decoded JSON value: head of a list, first character
of a string, KeyError on a dict (string keys never equal `0`), TypeError
otherwise. -/
def pySub0 : Json → Except PyErr Json
  | .arr (x :: _) => .ok x
  | .arr [] => .error .indexError
  | .str s =>
    match s.data with
    | c :: _ => .ok (.str (String.singleton c))
    | [] => .error .indexError
  | .obj _ => .error .keyError
  | _ => .error .typeError

/-- Python `d.items()`: raises AttributeError when `d` is not a dict. -/
def pyItems : Json → Except PyErr (List (String × Json))
  | .obj kvs => .ok kvs
  | _ => .error .attributeError

/-- Python `list(d.keys())`: raises AttributeError when `d` is not a dict. -/
def pyKeys : Json → Except PyErr (List String)
  | .obj kvs => .ok (kvs.map (·.1))
  | _ => .error .attributeError

/-- Python `x == s` for a string literal `s`: true exactly when `x` is that
string (values of other types never compare equal to a `str`). -/
def pyEqStr (v : Json) (s : String) : Bool :=
  match v with
  | .str t => t == s
  | _ => false

/-- The single-quote character, used by Python string `repr` and by
messages the script prints. -/
def apos : String := String.singleton (Char.ofNat 39)

/-- Python `repr`/`str` of a `float` value whose exact value is the
rational `q` with a terminating decimal expansion (every literal the
script decodes and prints has one). -/
def floatRepr (q : Rat) : String :=
  match (List.range 400).find? (fun k => Nat.pow 10 k % q.den == 0) with
  | some 0 => toString q.num ++ ".0"
  | some k =>
    let m : Int := q.num * ((Nat.pow 10 k / q.den : Nat) : Int)
    let s := toString m.natAbs
    let s := if s.length ≤ k then String.mk (List.replicate (k + 1 - s.length) '0') ++ s else s
    let ds := s.data
    (if m < 0 then "-" else "")
      ++ String.mk (ds.take (ds.length - k)) ++ "." ++ String.mk (ds.drop (ds.length - k))
  | none => toString q.num ++ "/" ++ toString q.den

/-- Python `repr` of a `str`: quote choice and escaping as in CPython
(for the characters that can occur in data handled by this script). -/
def pyReprStr (s : String) : String :=
  let sqc : Char := Char.ofNat 39
  let dqc : Char := Char.ofNat 34
  let q : Char := if s.contains sqc && !s.contains dqc then dqc else sqc
  let esc : Char → String := fun c =>
    if c = '\\' then "\\\\"
    else if c = q then "\\" ++ String.singleton q
    else if c = '\n' then "\\n"
    else if c = '\r' then "\\r"
    else if c = '\t' then "\\t"
    else String.singleton c
  String.singleton q ++ String.join (s.data.map esc) ++ String.singleton q

mutual

/-- Python `repr` of a decoded JSON value. -/
def pyRepr : Json → String
  | .null => "None"
  | .bool true => "True"
  | .bool false => "False"
  | .int n => toString n
  | .float q => floatRepr q
  | .str s => pyReprStr s
  | .arr xs => "[" ++ pyReprList xs ++ "]"
  | .obj kvs => "\x7b" ++ pyReprObj kvs ++ "\x7d"

/-- Comma-joined `repr`s of list elements. -/
def pyReprList : List Json → String
  | [] => ""
  | [x] => pyRepr x
  | x :: xs => pyRepr x ++ ", " ++ pyReprList xs

/-- Comma-joined `repr`s of dict entries. -/
def pyReprObj : List (String × Json) → String
  | [] => ""
  | [(k, v)] => pyReprStr k ++ ": " ++ pyRepr v
  | (k, v) :: kvs => pyReprStr k ++ ": " ++ pyRepr v ++ ", " ++ pyReprObj kvs

end

/-- Python `str` of a decoded JSON value (as interpolated by f-strings):
identity on strings, `repr` otherwise. -/
def pyStr (j : Json) : String :=
  match j with
  | .str s => s
  | _ => pyRepr j

/-- Four-digit lowercase hex of `n`, for `\uXXXX` JSON escapes. -/
def hex4 (n : Nat) : String :=
  let d : Nat → Char := fun k =>
    if k < 10 then Char.ofNat (48 + k) else Char.ofNat (97 + (k - 10))
  String.mk [d (n / 4096 % 16), d (n / 256 % 16), d (n / 16 % 16), d (n % 16)]

/-- JSON string escaping as done by `json.dumps` (default `ensure_ascii`). -/
def jsonQuoteChar (c : Char) : String :=
  if c = '"' then "\\\""
  else if c = '\\' then "\\\\"
  else if c = '\n' then "\\n"
  else if c = '\r' then "\\r"
  else if c = '\t' then "\\t"
  else if c.toNat < 32 then "\\u" ++ hex4 c.toNat
  else if c.toNat < 127 then String.singleton c
  else if c.toNat < 65536 then "\\u" ++ hex4 c.toNat
  else
    let v := c.toNat - 65536
    "\\u" ++ hex4 (55296 + v / 1024) ++ "\\u" ++ hex4 (56320 + v % 1024)

/-- `json.dumps` rendering of a string, quotes included. -/
def jsonQuote (s : String) : String :=
  "\"" ++ String.join (s.data.map jsonQuoteChar) ++ "\""

/-- `indent`-level left margin produced by `json.dumps(..., indent=2)`. -/
def jsonPad (level : Nat) : String := String.mk (List.replicate (2 * level) ' ')

mutual

/-- `json.dumps(x, indent=2)`, at nesting depth `level`. -/
def jsonDumpsAt (level : Nat) : Json → String
  | .null => "null"
  | .bool true => "true"
  | .bool false => "false"
  | .int n => toString n
  | .float q => floatRepr q
  | .str s => jsonQuote s
  | .arr [] => "[]"
  | .arr (x :: xs) =>
    "[\n" ++ jsonDumpsArr (level + 1) (x :: xs) ++ "\n" ++ jsonPad level ++ "]"
  | .obj [] => "\x7b\x7d"
  | .obj (kv :: kvs) =>
    "\x7b\n" ++ jsonDumpsObj (level + 1) (kv :: kvs) ++ "\n" ++ jsonPad level ++ "\x7d"

/-- Array elements, one per line, comma-separated, at margin `level`. -/
def jsonDumpsArr (level : Nat) : List Json → String
  | [] => ""
  | [x] => jsonPad level ++ jsonDumpsAt level x
  | x :: xs => jsonPad level ++ jsonDumpsAt level x ++ ",\n" ++ jsonDumpsArr level xs

/-- Object entries, one per line, comma-separated, at margin `level`. -/
def jsonDumpsObj (level : Nat) : List (String × Json) → String
  | [] => ""
  | [(k, v)] => jsonPad level ++ jsonQuote k ++ ": " ++ jsonDumpsAt level v
  | (k, v) :: kvs =>
    jsonPad level ++ jsonQuote k ++ ": " ++ jsonDumpsAt level v ++ ",\n" ++ jsonDumpsObj level kvs

end

/-- `json.dumps(x, indent=2)` as the script calls it. -/
def jsonDumps (x : Json) : String := jsonDumpsAt 0 x

/-! ## Credential Provider: `get_token` (lines 31-41)

The process-global `_token_cache = {"token": None, "expires": 0}` is an
explicit `TokenCache` value threaded through calls.  `time.time()` is the
explicit `now` argument; the token that
`DefaultAzureCredential().get_token(...)` would return at that moment is
the explicit `freshToken` argument.  The returned `Bool` records whether a
network/credential acquisition was performed. -/

/-- The `_token_cache` dictionary of the script. -/
structure TokenCache where
  token : Option String
  expires : Rat
deriving DecidableEq

/-- `_token_cache = {"token": None, "expires": 0}` (line 24). -/
def initialTokenCache : TokenCache := { token := none, expires := 0 }

/-- Python truthiness of `_token_cache["token"]` (`None` and `""` are
falsy). -/
def tokenTruthy : Option String → Bool
  | some t => t != ""
  | none => false

/-- `get_token()`: returns the cached token when it is truthy and `now`
is before the recorded expiry; otherwise acquires `freshToken`, caches it
with expiry `now + 3000`, and returns it. -/
def get_token (now : Rat) (freshToken : String) (c : TokenCache) :
    String × TokenCache × Bool :=
  if tokenTruthy c.token ∧ now < c.expires then
    (c.token.getD "", c, false)
  else
    (freshToken, { token := some freshToken, expires := now + 3000 }, true)

/-! ## Analysis Submitter: `start_analysis` (lines 44-64) -/

/-- An HTTP response as the `requests` library presents it. -/
structure HttpResp where
  status : Nat
  headers : List (String × String)
  text : String

/-- ASCII lower-casing of a character (header names are ASCII). -/
def asciiLowerChar (c : Char) : Char :=
  if 65 ≤ c.toNat ∧ c.toNat ≤ 90 then Char.ofNat (c.toNat + 32) else c

/-- ASCII lower-casing of a string. -/
def asciiLower (s : String) : String := String.mk (s.data.map asciiLowerChar)

/-- Case-insensitive header lookup of `requests` (`resp.headers.get(name)`). -/
def headerGet (hs : List (String × String)) (name : String) : Option String :=
  (hs.find? (fun kv => asciiLower kv.1 == asciiLower name)).map (·.2)

/-- Python truthiness of an optional string (`None` and `""` are falsy). -/
def optTruthy : Option String → Bool
  | some s => s != ""
  | none => false

/-- Python `a or b` on two optional strings. -/
def pyOrStr (a b : Option String) : Option String :=
  if optTruthy a then a else b

/-- `start_analysis(token)`, applied to the response of the POST.  Returns the
emitted events (the `Request ID` print and the `requests.txt` append)
together with either the `Operation-Location` value or the raised
exception.  `resp.raise_for_status()` raises `HTTPError` exactly for
status codes in `[400, 600)`. -/
def start_analysis (resp : HttpResp) : List Event × Except PyErr String :=
  if 400 ≤ resp.status ∧ resp.status < 600 then
    ([], .error (.httpError resp.status resp.text))
  else
    let request_id := pyOrStr (headerGet resp.headers "x-ms-request-id")
      (headerGet resp.headers "apim-request-id")
    let events :=
      if optTruthy request_id then
        [Event.print ("Request ID: " ++ request_id.getD ""),
         Event.appendFile "requests.txt" (request_id.getD "" ++ "\n")]
      else []
    let op_url := headerGet resp.headers "Operation-Location"
    if optTruthy op_url then
      (events, .ok (op_url.getD ""))
    else
      (events, .error (.runtimeError ("Missing Operation-Location header: " ++ resp.text)))

/-! ## Operation Poller: `poll_until_done` (lines 67-89)

The poller is driven by a scripted list of GET responses: the n-th list
element is the response to the n-th GET.  The loop body performs, in
order: `get_token()` (threading of the token cache does not influence any
control flow below and is modelled separately), the GET, a
`raise_for_status()` check, `resp.json()` decoding (given as `body`),
the status dispatch, and `time.sleep(2)` on non-terminal statuses.  The
outcome records how many GETs were issued and how many sleeps were
performed; `scriptExhausted n s` means the loop issued its `n`-th GET
with the script already consumed (the unbounded loop is still running). -/

/-- One scripted response to a polling GET. -/
structure PollResp where
  status : Nat
  text : String
  body : Json

/-- Observable outcome of running the poll loop against a finite script. -/
inductive PollOutcome where
  | success (data : Json) (gets sleeps : Nat) : PollOutcome
  | failure (e : PyErr) (gets sleeps : Nat) : PollOutcome
  | scriptExhausted (gets sleeps : Nat) : PollOutcome

/-- The `while True` body of `poll_until_done`, with GET/sleep counters. -/
def pollLoop : List PollResp → Nat → Nat → PollOutcome
  | [], gets, sleeps => .scriptExhausted (gets + 1) sleeps
  | r :: rest, gets, sleeps =>
    if 400 ≤ r.status ∧ r.status < 600 then
      .failure (.httpError r.status r.text) (gets + 1) sleeps
    else
      match pyGet r.body "status" .null with
      | .error e => .failure e (gets + 1) sleeps
      | .ok status =>
        if pyEqStr status "Succeeded" then
          .success r.body (gets + 1) sleeps
        else if pyEqStr status "Failed" || pyEqStr status "Canceled" then
          .failure (.runtimeError ("Analysis " ++ pyStr status ++ ": "
            ++ jsonDumps (match r.body with
                          | .obj kvs => (assocGet kvs "error").getD r.body
                          | _ => r.body)))
            (gets + 1) sleeps
        else
          pollLoop rest (gets + 1) (sleeps + 1)

/-- `poll_until_done(op_url)` against a scripted response sequence. -/
def poll_until_done (script : List PollResp) : PollOutcome :=
  pollLoop script 0 0

/-! ## Result Reporter: the tail of `main` (lines 100-153)

`main_report analysis_result` runs everything `main` does after
`poll_until_done` returns: the `cu_result.json` write, the `Done!` print
and the summary.  It returns the events emitted in order, paired with
`some e` when a Python exception `e` aborts the summary (events before
the exception are kept, as the interpreter would have performed them). -/

/-- `print("-" * 60)`. -/
def dashes : String := String.mk (List.replicate 60 '-')

/-- The body of `for field_name, field_value in fields.items()`
(lines 120-134), producing the printed line or the raised exception. -/
def renderField (field_name : String) (field_value : Json) : Except PyErr String :=
  match pyGet field_value "type" (.str "unknown") with
  | .error e => .error e
  | .ok field_type =>
    if pyEqStr field_type "string" then
      match pyGet field_value "valueString" .null with
      | .error e => .error e
      | .ok v => .ok ("  " ++ field_name ++ ": " ++ pyStr v)
    else if pyEqStr field_type "number" then
      match pyGet field_value "valueNumber" .null with
      | .error e => .error e
      | .ok v => .ok ("  " ++ field_name ++ ": " ++ pyStr v)
    else if pyEqStr field_type "date" then
      match pyGet field_value "valueDate" .null with
      | .error e => .error e
      | .ok v => .ok ("  " ++ field_name ++ ": " ++ pyStr v)
    else if pyEqStr field_type "array" then
      match pyGet field_value "valueArray" (.arr []) with
      | .error e => .error e
      | .ok arr =>
        match pyLen arr with
        | .error e => .error e
        | .ok n => .ok ("  " ++ field_name ++ ": [" ++ toString n ++ " items]")
    else if pyEqStr field_type "object" then
      .ok ("  " ++ field_name ++ ": [object]")
    else
      .ok ("  " ++ field_name ++ ": (" ++ pyStr field_type ++ ")")

/-- The field-printing loop (lines 120-134): prints each rendered line
until a field value raises. -/
def printFields : List (String × Json) → List Event × Option PyErr
  | [] => ([], none)
  | (field_name, field_value) :: rest =>
    match renderField field_name field_value with
    | .error e => ([], some e)
    | .ok line =>
      let (evs, err) := printFields rest
      (Event.print line :: evs, err)

/-- Lines 100-153 of `main`, from the `cu_result.json` write on. -/
def main_report (analysis_result : Json) : List Event × Option PyErr :=
  let hd : List Event :=
    [Event.writeFile "cu_result.json" (jsonDumps analysis_result),
     Event.print "Done! Saved to cu_result.json"]
  match pyGet analysis_result "result" analysis_result with
  | .error e => (hd, some e)
  | .ok result =>
  match pyGet result "contents" (.arr []) with
  | .error e => (hd, some e)
  | .ok contents =>
  match pyLen contents with
  | .error e => (hd, some e)
  | .ok n =>
  let hd := hd ++ [Event.print ("Extracted " ++ toString n ++ " content item(s)")]
  if pyTruthy contents then
    match pySub0 contents with
    | .error e => (hd, some e)
    | .ok first_content =>
    match pyGet first_content "fields" (.obj []) with
    | .error e => (hd, some e)
    | .ok fields =>
    if pyTruthy fields then
      match pyLen fields with
      | .error e => (hd, some e)
      | .ok flen =>
      let hd := hd ++ [Event.print ("\n📊 Extracted " ++ toString flen ++ " field(s):"),
                       Event.print dashes]
      match pyItems fields with
      | .error e => (hd, some e)
      | .ok items => (hd ++ (printFields items).1, (printFields items).2)
    else
      let hd := hd ++
        [Event.print "\n⚠️  No fields extracted from document!",
         Event.print "   This can happen if:",
         Event.print ("   - The document format doesn" ++ apos ++ "t match the analyzer type"),
         Event.print "   - The document quality is too low for extraction",
         Event.print "   - The analyzer requires configuration (for custom analyzers)"]
      match pyGet first_content "kind" .null with
      | .error e => (hd, some e)
      | .ok kind =>
      let hd := hd ++ [Event.print ("\n   Content " ++ apos ++ "kind" ++ apos ++ ": " ++ pyStr kind)]
      match pyGet first_content "startPageNumber" .null with
      | .error e => (hd, some e)
      | .ok sp =>
      match pyGet first_content "endPageNumber" .null with
      | .error e => (hd, some e)
      | .ok ep =>
      let hd := hd ++ [Event.print ("   Pages: " ++ pyStr sp ++ " - " ++ pyStr ep)]
      match pyGet first_content "markdown" .null with
      | .error e => (hd, some e)
      | .ok md =>
      match pyGet first_content "text" .null with
      | .error e => (hd, some e)
      | .ok tx =>
      let hd :=
        if pyTruthy md || pyTruthy tx then
          hd ++ [Event.print "\n   ✓ Grounding content (OCR/text) IS present",
                 Event.print "   → The document was read, but field extraction failed"]
        else hd
      match pyKeys first_content with
      | .error e => (hd, some e)
      | .ok keys =>
        (hd ++ [Event.print ("\n   Available content keys: "
          ++ pyRepr (.arr (keys.map Json.str)))], none)
  else
    (hd ++ [Event.print "\n⚠️  No content items returned!",
            Event.print "   Check if the document URL is accessible and the format is supported."],
      none)

/-- The `result`/`contents` extraction of lines 108-109, as a standalone
expression (used to state which value the branch on line 113 tests). -/
def contentsOf (analysis_result : Json) : Except PyErr Json :=
  match pyGet analysis_result "result" analysis_result with
  | .error e => .error e
  | .ok result => pyGet result "contents" (.arr [])

/-! Shape conditions under which the summary cannot raise (the
documented result schema satisfies all of them). -/

/-- The value has a Python `len` (str, list or dict). -/
def sized : Json → Bool
  | .str _ => true
  | .arr _ => true
  | .obj _ => true
  | _ => false

/-- A field value the rendering loop handles without raising: a dict, and
when its resolved type tag is `"array"`, a `valueArray` with a `len`. -/
def fieldOk (fv : Json) : Bool :=
  match fv with
  | .obj kvs =>
    if pyEqStr ((assocGet kvs "type").getD (.str "unknown")) "array" then
      sized ((assocGet kvs "valueArray").getD (.arr []))
    else true
  | _ => false

/-- A truthy `fields` value the loop handles: a dict of `fieldOk`
values. -/
def fieldsOkAll : Json → Bool
  | .obj fkvs => fkvs.all (fun kv => fieldOk kv.2)
  | _ => false

/-- A first content item the summary handles without raising. -/
def contentOk (c : Json) : Bool :=
  match c with
  | .obj kvs =>
    let fields := (assocGet kvs "fields").getD (.obj [])
    if pyTruthy fields then fieldsOkAll fields else true
  | _ => false

/-- A `contents` value the summary handles: a list whose head (if any)
satisfies `contentOk`. -/
def contentsWS : Json → Bool
  | .arr [] => true
  | .arr (c :: _) => contentOk c
  | _ => false

/-- A `result` value the summary handles. -/
def resultWS : Json → Bool
  | .obj rkvs => contentsWS ((assocGet rkvs "contents").getD (.arr []))
  | _ => false

/-- A decoded result the whole summary handles without raising: the
envelope and (when consulted) the `result` value are dicts, `contents` is
a list, and the first item of a nonempty list satisfies `contentOk`. -/
def wellShaped (analysis_result : Json) : Bool :=
  match analysis_result with
  | .obj kvs => resultWS ((assocGet kvs "result").getD (.obj kvs))
  | _ => false

/-! ## File-system semantics for the event trace -/

/-- File contents by path. -/
def FS := List (String × String)

/-- Contents of `path`, if the file exists. -/
def fsGet : FS → String → Option String
  | [], _ => none
  | (p, c) :: rest, path => if p = path then some c else fsGet rest path

/-- Replace (or create) `path` with contents `c`. -/
def fsSet : FS → String → String → FS
  | [], path, c => [(path, c)]
  | (p, c0) :: rest, path, c =>
    if p = path then (p, c) :: rest else (p, c0) :: fsSet rest path c

/-- Apply one event to the file system: `open(..., "w")` overwrites,
`open(..., "a")` appends (creating an empty file first if needed). -/
def applyEvent (fs : FS) : Event → FS
  | .print _ => fs
  | .writeFile p c => fsSet fs p c
  | .appendFile p c => fsSet fs p ((fsGet fs p).getD "" ++ c)

/-- Apply a trace of events in order. -/
def applyEvents (fs : FS) (evs : List Event) : FS :=
  evs.foldl applyEvent fs

/-- The lines printed in an event trace, in order. -/
def printed (evs : List Event) : List String :=
  evs.filterMap (fun e => match e with | .print s => some s | _ => none)

/-- A scripted poll response that keeps the loop going: HTTP success and a
payload whose `status` compares equal to none of the three terminal
strings. -/
def nonTerminalResp (r : PollResp) : Prop :=
  r.status < 400 ∧
    ∃ v, pyGet r.body "status" .null = .ok v ∧
      pyEqStr v "Succeeded" = false ∧ pyEqStr v "Failed" = false ∧
      pyEqStr v "Canceled" = false

/-! ## Helper lemmas -/

/-- Two strings differ when the constant prefix of the first is not a
prefix of the second. -/
theorem append_ne_of_not_prefix {p s : String} (t : String)
    (h : ¬ (p.data <+: s.data)) : p ++ t ≠ s := by
  intro he
  apply h
  rw [← he, String.data_append]
  exact List.prefix_append p.data t.data

/-- The poll loop on an all-non-terminal script: every response costs one
GET and one sleep, and the loop is still running (issuing one more GET)
when the script runs out. -/
theorem pollLoop_nonterminal (script : List PollResp)
    (h : ∀ r ∈ script, nonTerminalResp r) (gets sleeps : Nat) :
    pollLoop script gets sleeps =
      .scriptExhausted (gets + script.length + 1) (sleeps + script.length) := by
  induction script generalizing gets sleeps with
  | nil => simp [pollLoop]
  | cons r rest ih =>
    obtain ⟨hst, v, hv, h1, h2, h3⟩ := h r (List.mem_cons_self r rest)
    have hrest : ∀ x ∈ rest, nonTerminalResp x := fun x hx => h x (List.mem_cons_of_mem r hx)
    simp only [pollLoop, hv, h1, h2, h3]
    rw [if_neg (by omega)]
    simp only [Bool.or_self, Bool.false_eq_true, if_false]
    rw [ih hrest]
    congr 1 <;> simp <;> omega

/-- After any `get_token` call the cache holds exactly the returned
token. -/
theorem get_token_cache_token (now : Rat) (fresh : String) (c : TokenCache) :
    (get_token now fresh c).2.1.token = some (get_token now fresh c).1 := by
  unfold get_token
  by_cases h : tokenTruthy c.token ∧ now < c.expires
  · rw [if_pos h]
    obtain ⟨h1, _⟩ := h
    match hc : c.token with
    | some t => simp
    | none => rw [hc] at h1; simp [tokenTruthy] at h1
  · rw [if_neg h]

/-- A truthy cached token is nonempty. -/
theorem get_token_hit (t1 : Rat) (tok2 : String) (c : TokenCache) (t : String)
    (hc : c.token = some t) (hne : t ≠ "") (hlt : t1 < c.expires) :
    get_token t1 tok2 c = (t, c, false) := by
  unfold get_token
  rw [if_pos ⟨by simp [tokenTruthy, hc, hne], hlt⟩]
  simp [hc]

/-! ## C1: the poll loop on `[Running, Running, Succeeded]` and `[Failed]` -/

/-- **C1.** With scripted statuses `[Running, Running, Succeeded]` the
poller returns the complete decoded payload of the third response — the
envelope itself, `result` key and all — after exactly two sleeps (and
three GETs); with the single scripted status `[Failed]` it raises at once
(zero sleeps) a `RuntimeError` embedding `json.dumps` of the
`error` value, or of the whole payload when no `error` key is present. -/
theorem poll_script_contract :
    (∀ r1 r2 r3 : PollResp,
      r1.status < 400 → r2.status < 400 → r3.status < 400 →
      pyGet r1.body "status" .null = .ok (.str "Running") →
      pyGet r2.body "status" .null = .ok (.str "Running") →
      pyGet r3.body "status" .null = .ok (.str "Succeeded") →
      poll_until_done [r1, r2, r3] = .success r3.body 3 2)
    ∧ (∀ (r : PollResp) (kvs : List (String × Json)),
      r.status < 400 → r.body = .obj kvs →
      pyGet r.body "status" .null = .ok (.str "Failed") →
      poll_until_done [r] =
        .failure (.runtimeError ("Analysis Failed: " ++ jsonDumps
          (match assocGet kvs "error" with
           | some e => e
           | none => r.body))) 1 0) := by
  constructor
  · intro r1 r2 r3 h1 h2 h3 s1 s2 s3
    have n1 : ¬ (400 ≤ r1.status ∧ r1.status < 600) := by omega
    have n2 : ¬ (400 ≤ r2.status ∧ r2.status < 600) := by omega
    have n3 : ¬ (400 ≤ r3.status ∧ r3.status < 600) := by omega
    simp [poll_until_done, pollLoop, s1, s2, s3, n1, n2, n3, pyEqStr]
  · intro r kvs h1 hb s1
    have n1 : ¬ (400 ≤ r.status ∧ r.status < 600) := by omega
    simp only [poll_until_done, pollLoop, s1, n1, if_false]
    rw [hb]
    cases h : assocGet kvs "error" <;>
      simp [pyEqStr, pyStr, pyRepr, h, Option.getD]

/-- Witness for C1 at concrete scripted responses. -/
theorem poll_script_contract_witness :
    poll_until_done
        [⟨200, "", .obj [("status", .str "Running")]⟩,
         ⟨200, "", .obj [("status", .str "Running")]⟩,
         ⟨200, "", .obj [("status", .str "Succeeded"), ("result", .obj [])]⟩] =
      .success (.obj [("status", .str "Succeeded"), ("result", .obj [])]) 3 2
    ∧ poll_until_done [⟨200, "", .obj [("status", .str "Failed"),
          ("error", .obj [("code", .str "InvalidRequest")])]⟩] =
      .failure (.runtimeError ("Analysis Failed: " ++ jsonDumps
        (.obj [("code", .str "InvalidRequest")]))) 1 0 := by
  constructor
  · exact poll_script_contract.1 ⟨200, "", .obj [("status", .str "Running")]⟩
      ⟨200, "", .obj [("status", .str "Running")]⟩
      ⟨200, "", .obj [("status", .str "Succeeded"), ("result", .obj [])]⟩
      (by norm_num) (by norm_num) (by norm_num) rfl rfl rfl
  · exact poll_script_contract.2
      ⟨200, "", .obj [("status", .str "Failed"),
        ("error", .obj [("code", .str "InvalidRequest")])]⟩
      [("status", .str "Failed"), ("error", .obj [("code", .str "InvalidRequest")])]
      (by norm_num) rfl rfl

/-! ## C7: unbounded polling on non-terminal statuses -/

/-- **C7.** On a script of only non-terminal responses the poller neither
returns nor raises: consuming `n` non-terminal responses costs `n` sleeps
(2 seconds each) and the loop then issues GET number `n + 1` — there is no
retry bound or timeout. -/
theorem poll_nonterminal_unbounded (script : List PollResp)
    (h : ∀ r ∈ script, nonTerminalResp r) :
    poll_until_done script = .scriptExhausted (script.length + 1) script.length := by
  have := pollLoop_nonterminal script h 0 0
  simpa [poll_until_done] using this

/-- Witness for C7: two non-terminal responses (one `Running`, one with a
non-string status) are consumed with two sleeps and a third GET issued. -/
theorem poll_nonterminal_unbounded_witness :
    poll_until_done
        [⟨200, "", .obj [("status", .str "Running")]⟩,
         ⟨200, "", .obj [("status", .str "NotStarted")]⟩] =
      .scriptExhausted 3 2 := by
  exact poll_nonterminal_unbounded _ (by
    intro r hr
    simp only [List.mem_cons, List.mem_singleton] at hr
    rcases hr with rfl | rfl | h
    · exact ⟨by norm_num, .str "Running", rfl, rfl, rfl, rfl⟩
    · exact ⟨by norm_num, .str "NotStarted", rfl, rfl, rfl, rfl⟩
    · simp at h)

/-! ## C2: token caching -/

/-- **C2.** After any `get_token` call that returned a (nonempty) token,
a second call strictly before the recorded expiry performs no credential
acquisition and returns the identical token with the cache untouched; a
second call at or past the expiry acquires the fresh token and re-caches
it with expiry `now + 3000`. -/
theorem get_token_caching (t0 t1 : Rat) (tok1 tok2 : String) (c0 : TokenCache)
    (hne : (get_token t0 tok1 c0).1 ≠ "") :
    (t1 < (get_token t0 tok1 c0).2.1.expires →
      get_token t1 tok2 (get_token t0 tok1 c0).2.1 =
        ((get_token t0 tok1 c0).1, (get_token t0 tok1 c0).2.1, false))
    ∧ ((get_token t0 tok1 c0).2.1.expires ≤ t1 →
      get_token t1 tok2 (get_token t0 tok1 c0).2.1 =
        (tok2, { token := some tok2, expires := t1 + 3000 }, true)) := by
  constructor
  · intro hlt
    exact get_token_hit t1 tok2 _ _ (get_token_cache_token t0 tok1 c0) hne hlt
  · intro hge
    unfold get_token
    rw [if_neg]
    intro ⟨_, hlt⟩
    exact absurd hge (not_le.mpr hlt)

/-- Witness for C2: from the empty cache, a fetch at time 0 followed by a
hit at time 100 and a refetch at time 3000. -/
theorem get_token_caching_witness :
    get_token 100 "tok2" ((get_token 0 "tok1" initialTokenCache).2.1) =
      ("tok1", { token := some "tok1", expires := 0 + 3000 }, false)
    ∧ get_token 3000 "tok2" ((get_token 0 "tok1" initialTokenCache).2.1) =
      ("tok2", { token := some "tok2", expires := 3000 + 3000 }, true) := by
  constructor
  · have h := (get_token_caching 0 100 "tok1" "tok2" initialTokenCache
      (by simp [get_token, initialTokenCache, tokenTruthy])).1
    simpa [get_token, initialTokenCache, tokenTruthy] using
      h (by norm_num [get_token, initialTokenCache, tokenTruthy])
  · have h := (get_token_caching 0 3000 "tok1" "tok2" initialTokenCache
      (by simp [get_token, initialTokenCache, tokenTruthy])).2
    have hle : (get_token 0 "tok1" initialTokenCache).2.1.expires ≤ (3000 : Rat) := by
      norm_num [get_token, initialTokenCache, tokenTruthy]
    simp only [get_token, initialTokenCache, tokenTruthy] at h
    exact h hle

/-! ## C3: the submission contract (corrected)

The claim reads "for every non-2xx response it raises an HTTP error", but
`resp.raise_for_status()` raises only for status codes in `[400, 600)`:
a `301` response carrying `Operation-Location: X` makes `start_analysis`
return `X` (and a `3xx` response without the header raises the
protocol-violation `RuntimeError`, not an `HTTPError`).  The amended
contract below scopes the HTTP-error clause to `4xx`/`5xx`.  "Carrying a
header" is read the way the code tests it: a truthy (nonempty) value. -/

/-- A 301 redirect response that carries `Operation-Location`. -/
def respRedirect : HttpResp :=
  { status := 301, headers := [("Operation-Location", "X")], text := "" }

/-- **C3, counterexample.** On the non-2xx (301) response carrying
`Operation-Location: X` the submitter returns `X` instead of raising an
HTTP error, refuting the claim clause "for every non-2xx response". -/
theorem start_analysis_non2xx_counterexample :
    (start_analysis respRedirect).2 = Except.ok "X" := by
  rfl

/-- **C3, amended.** For every 2xx response carrying a (truthy)
`Operation-Location: X` header, `start_analysis` returns exactly `X`; for
every 2xx response without one it raises the distinct protocol-violation
`RuntimeError` (not an HTTP error); for every 4xx/5xx response it raises
an `HTTPError` carrying the status and body (3xx responses pass
`raise_for_status` and are handled like 2xx ones). -/
theorem start_analysis_contract (resp : HttpResp) (x : String) :
    (200 ≤ resp.status → resp.status < 300 →
      headerGet resp.headers "Operation-Location" = some x → x ≠ "" →
      (start_analysis resp).2 = .ok x)
    ∧ (200 ≤ resp.status → resp.status < 300 →
      optTruthy (headerGet resp.headers "Operation-Location") = false →
      (start_analysis resp).2 =
        .error (.runtimeError ("Missing Operation-Location header: " ++ resp.text)))
    ∧ (400 ≤ resp.status → resp.status < 600 →
      (start_analysis resp).2 = .error (.httpError resp.status resp.text)) := by
  refine ⟨?_, ?_, ?_⟩
  · intro h1 h2 hop hx
    have n : ¬ (400 ≤ resp.status ∧ resp.status < 600) := by omega
    simp [start_analysis, n, hop, optTruthy, hx]
  · intro h1 h2 hop
    have n : ¬ (400 ≤ resp.status ∧ resp.status < 600) := by omega
    simp [start_analysis, n, hop]
  · intro h1 h2
    simp [start_analysis, h1, h2]

/-- Witness for C3 (amended): a 200 response with the header, a 200
response without it, and a 404. -/
theorem start_analysis_contract_witness :
    (start_analysis ⟨200, [("Operation-Location", "https://poll")], ""⟩).2 =
      .ok "https://poll"
    ∧ (start_analysis ⟨200, [], "nope"⟩).2 =
      .error (.runtimeError "Missing Operation-Location header: nope")
    ∧ (start_analysis ⟨404, [], "missing"⟩).2 =
      .error (.httpError 404 "missing") := by
  refine ⟨?_, ?_, ?_⟩
  · exact (start_analysis_contract ⟨200, [("Operation-Location", "https://poll")], ""⟩
      "https://poll").1 (by norm_num) (by norm_num) rfl (by simp)
  · exact (start_analysis_contract ⟨200, [], "nope"⟩ "").2.1 (by norm_num) (by norm_num) rfl
  · exact (start_analysis_contract ⟨404, [], "missing"⟩ "").2.2 (by norm_num) (by norm_num)

/-! ## C10: the request-id log -/

/-- **C10.** On a successful (2xx) submission response whose
`Operation-Location` is truthy: with a truthy `x-ms-request-id` the
submitter prints the id and appends exactly one line with it to
`requests.txt` (preferring that header); with `x-ms-request-id` falsy but
a truthy `apim-request-id` it logs the latter; with neither, it performs
no file event at all — and in every case submission succeeds, returning
the operation handle unchanged. -/
theorem start_analysis_request_log (resp : HttpResp) (x : String)
    (h1 : 200 ≤ resp.status) (h2 : resp.status < 300)
    (hop : headerGet resp.headers "Operation-Location" = some x) (hx : x ≠ "") :
    (∀ rid, headerGet resp.headers "x-ms-request-id" = some rid → rid ≠ "" →
      start_analysis resp =
        ([.print ("Request ID: " ++ rid), .appendFile "requests.txt" (rid ++ "\n")], .ok x))
    ∧ (optTruthy (headerGet resp.headers "x-ms-request-id") = false →
      ∀ rid, headerGet resp.headers "apim-request-id" = some rid → rid ≠ "" →
      start_analysis resp =
        ([.print ("Request ID: " ++ rid), .appendFile "requests.txt" (rid ++ "\n")], .ok x))
    ∧ (optTruthy (headerGet resp.headers "x-ms-request-id") = false →
      optTruthy (headerGet resp.headers "apim-request-id") = false →
      start_analysis resp = ([], .ok x)) := by
  have n : ¬ (400 ≤ resp.status ∧ resp.status < 600) := by omega
  have hox : optTruthy (some x) = true := by simp [optTruthy, hx]
  refine ⟨?_, ?_, ?_⟩
  · intro rid hrid hne
    have hor : pyOrStr (headerGet resp.headers "x-ms-request-id")
        (headerGet resp.headers "apim-request-id") = some rid := by
      simp [pyOrStr, optTruthy, hrid, hne]
    have hot : optTruthy (some rid) = true := by simp [optTruthy, hne]
    simp [start_analysis, n, hor, hot, hop, hox]
  · intro hfst rid hrid hne
    have hor : pyOrStr (headerGet resp.headers "x-ms-request-id")
        (headerGet resp.headers "apim-request-id") = some rid := by
      simp [pyOrStr, hfst, hrid]
    have hot : optTruthy (some rid) = true := by simp [optTruthy, hne]
    simp [start_analysis, n, hor, hot, hop, hox]
  · intro hfst hsnd
    have hor : optTruthy (pyOrStr (headerGet resp.headers "x-ms-request-id")
        (headerGet resp.headers "apim-request-id")) = false := by
      simp [pyOrStr, hfst, hsnd]
    simp [start_analysis, n, hor, hop, hox]

/-- Witness for C10 at concrete responses exercising all three cases. -/
theorem start_analysis_request_log_witness :
    start_analysis ⟨202, [("x-ms-request-id", "id1"), ("apim-request-id", "id2"),
        ("Operation-Location", "https://poll")], ""⟩ =
      ([.print "Request ID: id1", .appendFile "requests.txt" "id1\n"], .ok "https://poll")
    ∧ start_analysis ⟨202, [("apim-request-id", "id2"),
        ("Operation-Location", "https://poll")], ""⟩ =
      ([.print "Request ID: id2", .appendFile "requests.txt" "id2\n"], .ok "https://poll")
    ∧ start_analysis ⟨202, [("Operation-Location", "https://poll")], ""⟩ =
      ([], .ok "https://poll") := by
  refine ⟨?_, ?_, ?_⟩
  · exact (start_analysis_request_log
      ⟨202, [("x-ms-request-id", "id1"), ("apim-request-id", "id2"),
        ("Operation-Location", "https://poll")], ""⟩ "https://poll"
      (by norm_num) (by norm_num) rfl (by simp)).1 "id1" rfl (by simp)
  · exact (start_analysis_request_log
      ⟨202, [("apim-request-id", "id2"), ("Operation-Location", "https://poll")], ""⟩
      "https://poll" (by norm_num) (by norm_num) rfl (by simp)).2.1 rfl "id2" rfl (by simp)
  · exact (start_analysis_request_log
      ⟨202, [("Operation-Location", "https://poll")], ""⟩ "https://poll"
      (by norm_num) (by norm_num) rfl (by simp)).2.2 rfl rfl

/-! ## Result Reporter helper lemmas -/

/-- Event classifier: `print` events touch no file. -/
def isPrint : Event → Bool
  | .print _ => true
  | _ => false

/-- The field loop emits print events only. -/
theorem printFields_all_print (items : List (String × Json)) :
    ((printFields items).1).all isPrint = true := by
  induction items with
  | nil => simp [printFields]
  | cons kv rest ih =>
    obtain ⟨k, v⟩ := kv
    simp only [printFields]
    cases renderField k v <;> simp [isPrint, ih]

/-- A trace of prints leaves the file system unchanged. -/
theorem applyEvents_of_prints (fs : FS) (evs : List Event)
    (h : evs.all isPrint = true) : applyEvents fs evs = fs := by
  induction evs generalizing fs with
  | nil => rfl
  | cons e rest ih =>
    simp only [List.all_cons, Bool.and_eq_true] at h
    cases e with
    | print s => exact ih fs h.2
    | writeFile p c => simp [isPrint] at h
    | appendFile p c => simp [isPrint] at h

/-- Overwriting then reading back a path. -/
theorem fsGet_fsSet (fs : FS) (p c : String) : fsGet (fsSet fs p c) p = some c := by
  induction fs with
  | nil => simp [fsSet, fsGet]
  | cons kv rest ih =>
    obtain ⟨q, c0⟩ := kv
    by_cases h : q = p <;> simp [fsSet, fsGet, h, ih]

/-- The first event of the reporter is always the `cu_result.json` write. -/
theorem main_report_head (r : Json) :
    (main_report r).1.head? = some (.writeFile "cu_result.json" (jsonDumps r)) := by
  unfold main_report
  repeat' split
  all_goals simp

/-- Every event after the leading write is a print. -/
theorem main_report_tail_prints (r : Json) :
    ((main_report r).1.tail).all isPrint = true := by
  unfold main_report
  repeat' split
  all_goals simp [isPrint, printFields_all_print]

/-- After running the trace of the reporter, `cu_result.json` holds exactly
`json.dumps(analysis_result, indent=2)`. -/
theorem report_file_after (r : Json) (fs : FS) :
    fsGet (applyEvents fs (main_report r).1) "cu_result.json" = some (jsonDumps r) := by
  have hh := main_report_head r
  obtain ⟨tl, htl⟩ : ∃ tl, (main_report r).1 =
      Event.writeFile "cu_result.json" (jsonDumps r) :: tl := by
    cases hev : (main_report r).1 with
    | nil => rw [hev] at hh; simp at hh
    | cons e tl =>
      rw [hev] at hh
      simp only [List.head?_cons, Option.some.injEq] at hh
      exact ⟨tl, by rw [hh]⟩
  have hpr := main_report_tail_prints r
  rw [htl] at hpr ⊢
  simp only [List.tail_cons] at hpr
  simp only [applyEvents, List.foldl_cons, applyEvent]
  rw [show (List.foldl applyEvent (fsSet fs "cu_result.json" (jsonDumps r)) tl)
      = applyEvents (fsSet fs "cu_result.json" (jsonDumps r)) tl from rfl,
    applyEvents_of_prints _ _ hpr]
  exact fsGet_fsSet fs _ _

/-- One run of the Result Reporter over an explicit file system: final
file system, printed lines, and the exception if one was raised. -/
def report_run (r : Json) (fs : FS) : FS × List String × Option PyErr :=
  (applyEvents fs (main_report r).1, printed (main_report r).1, (main_report r).2)

/-! ## C8: idempotent reporting -/

/-- **C8.** Running the reporter twice on the same decoded result prints
byte-identical output, raises identically, and leaves `cu_result.json`
byte-identical: the summary reads nothing but its argument, and the
result file is opened in overwrite mode. -/
theorem report_idempotent (r : Json) (fs : FS) :
    (report_run r (report_run r fs).1).2 = (report_run r fs).2
    ∧ fsGet (report_run r (report_run r fs).1).1 "cu_result.json"
        = fsGet (report_run r fs).1 "cu_result.json" := by
  refine ⟨rfl, ?_⟩
  show fsGet (applyEvents _ (main_report r).1) _ = fsGet (applyEvents fs (main_report r).1) _
  rw [report_file_after, report_file_after]

/-! ## C9: the payload is persisted before any summary output -/

/-- **C9.** The very first effect of the reporter is writing the complete
decoded payload (as `json.dumps(..., indent=2)`) to `cu_result.json`,
before any summary print; consequently, whatever the summary then does —
including raising on an unexpected shape — the full payload is already on
disk, and stays there untouched. -/
theorem report_persists_first (r : Json) :
    (main_report r).1.head? = some (.writeFile "cu_result.json" (jsonDumps r))
    ∧ ∀ fs : FS, fsGet (applyEvents fs (main_report r).1) "cu_result.json"
        = some (jsonDumps r) :=
  ⟨main_report_head r, fun fs => report_file_after r fs⟩

/-- A sized value has a `len`. -/
theorem sized_pyLen (v : Json) (h : sized v = true) : ∃ n, pyLen v = .ok n := by
  cases v <;> simp [sized, pyLen] at h ⊢

/-- Rendering a `fieldOk` field value cannot raise. -/
theorem renderField_ok (k : String) (fv : Json) (h : fieldOk fv = true) :
    ∃ line, renderField k fv = .ok line := by
  cases fv with
  | obj kvs =>
    by_cases harr : pyEqStr ((assocGet kvs "type").getD (.str "unknown")) "array" = true
    · have hs : sized ((assocGet kvs "valueArray").getD (.arr [])) = true := by
        simpa [fieldOk, harr] using h
      obtain ⟨n, hn⟩ := sized_pyLen _ hs
      have hft : (assocGet kvs "type").getD (.str "unknown") = .str "array" := by
        cases hv : (assocGet kvs "type").getD (.str "unknown") <;> rw [hv] at harr
        all_goals simp [pyEqStr] at harr
        simp [harr]
      exact ⟨"  " ++ k ++ ": [" ++ toString n ++ " items]",
        by simp [renderField, pyGet, hft, pyEqStr, hn]⟩
    · unfold renderField
      simp only [pyGet]
      repeat' split
      all_goals exact ⟨_, rfl⟩
  | _ => simp [fieldOk] at h

/-- The field loop cannot raise when every field value is `fieldOk`. -/
theorem printFields_ok (items : List (String × Json))
    (h : ∀ kv ∈ items, fieldOk kv.2 = true) : (printFields items).2 = none := by
  induction items with
  | nil => rfl
  | cons kv rest ih =>
    obtain ⟨k, v⟩ := kv
    obtain ⟨line, hl⟩ := renderField_ok k v (h ⟨k, v⟩ (List.mem_cons_self _ _))
    simp only [printFields, hl]
    exact ih (fun kv hkv => h kv (List.mem_cons_of_mem _ hkv))

/-! ## C4: the reporter and unexpected result shapes (corrected)

The claim says the summary never raises "for any shape of result".  The
code reads the decoded value with bare `.get` / `len` / subscripting, so
a result that is not a JSON object (or whose nested pieces have
unexpected types) raises — e.g. `json.loads` of the string `"oops"`
yields a `str`, and `analysis_result.get(...)` is an `AttributeError`.
The amended claim restricts to shape-conformant results (`wellShaped`),
which covers everything the documented service schema can return. -/

/-- **C4, counterexample.** On the decoded result `"oops"` (a JSON
string) the reporter raises `AttributeError` at
`analysis_result.get("result", ...)`, refuting "never raises ... for any
shape of result". -/
theorem report_raises_counterexample :
    (main_report (Json.str "oops")).2 = some PyErr.attributeError := rfl

/-- **C4, amended.** On every shape-conformant decoded result (envelope
and content items are objects, `contents` is an array, fields and their
relevant `valueArray`s have the expected types) the reporter never
raises: it only prints field lines or diagnostic text. -/
theorem report_no_raise_wellShaped (r : Json) (h : wellShaped r = true) :
    (main_report r).2 = none := by
  cases r with
  | obj kvs =>
    simp only [wellShaped] at h
    cases hres : (assocGet kvs "result").getD (.obj kvs) with
    | obj rkvs =>
      rw [hres] at h
      simp only [resultWS] at h
      simp only [main_report, pyGet, hres]
      cases hcont : (assocGet rkvs "contents").getD (.arr []) with
      | arr cs =>
        rw [hcont] at h
        cases cs with
        | nil => simp [pyLen, pyTruthy]
        | cons c rest =>
          simp only [contentsWS] at h
          have hct : pyTruthy (Json.arr (c :: rest)) = true := by simp [pyTruthy]
          simp only [pyLen, hct, if_true, pySub0]
          cases c with
          | obj ckvs =>
            simp only [contentOk] at h
            simp only [pyGet]
            by_cases ht : pyTruthy ((assocGet ckvs "fields").getD (.obj [])) = true
            · rw [ht] at h
              simp only [if_true] at h
              cases hf : (assocGet ckvs "fields").getD (.obj []) with
              | obj fkvs =>
                rw [hf] at h ht
                simp only [fieldsOkAll] at h
                simp only [hf, ht, if_true, pyLen, pyItems]
                exact printFields_ok fkvs (by simpa [List.all_eq_true] using h)
              | _ =>
                rw [hf] at h
                simp [fieldsOkAll] at h
            · simp only [Bool.not_eq_true] at ht
              simp [ht, pyGet, pyKeys]
          | _ => simp [contentOk] at h
      | _ =>
        rw [hcont] at h
        simp [contentsWS] at h
    | _ =>
      rw [hres] at h
      simp [resultWS] at h
  | _ => simp [wellShaped] at h

/-- Witness for C4 (amended): a shape-conformant result whose first
content item has no fields (the diagnostic branch) runs to completion. -/
theorem report_no_raise_wellShaped_witness :
    wellShaped (.obj [("result", .obj [("contents",
        .arr [.obj [("kind", .str "document")]])])]) = true
    ∧ (main_report (.obj [("result", .obj [("contents",
        .arr [.obj [("kind", .str "document")]])])])).2 = none :=
  ⟨rfl, report_no_raise_wellShaped _ rfl⟩

/-! ## C5: field rendering -/

/-- A result whose first content item has the single field
`Total : {type: number, valueNumber: 42.5}` (42.5 = `mkRat 85 2`). -/
def exTotal : Json :=
  .obj [("result", .obj [("contents", .arr [.obj [("fields",
    .obj [("Total", .obj [("type", .str "number"),
      ("valueNumber", .float (mkRat 85 2))])])]])])]

/-- A result whose first content item has the single field
`Vendor : {type: string, valueString: "Acme"}`. -/
def exVendor : Json :=
  .obj [("result", .obj [("contents", .arr [.obj [("fields",
    .obj [("Vendor", .obj [("type", .str "string"),
      ("valueString", .str "Acme")])])]])])]

/-- **C5.** The reporter renders `Total: {type: number, valueNumber:
42.5}` as the line `  Total: 42.5` and `Vendor: {type: string,
valueString: "Acme"}` as `  Vendor: Acme`; in general the loop body
renders a field of type `array` by its element count, type `date` by the
date literal, and type `object` or any unrecognised type by a generic
placeholder. -/
theorem field_rendering :
    printed (main_report exTotal).1 =
      ["Done! Saved to cu_result.json", "Extracted 1 content item(s)",
       "\n📊 Extracted 1 field(s):", dashes, "  Total: 42.5"]
    ∧ printed (main_report exVendor).1 =
      ["Done! Saved to cu_result.json", "Extracted 1 content item(s)",
       "\n📊 Extracted 1 field(s):", dashes, "  Vendor: Acme"]
    ∧ (∀ (name : String) (fv : Json) (xs : List Json),
      pyGet fv "type" (.str "unknown") = .ok (.str "array") →
      pyGet fv "valueArray" (.arr []) = .ok (.arr xs) →
      renderField name fv = .ok ("  " ++ name ++ ": [" ++ toString xs.length ++ " items]"))
    ∧ (∀ (name : String) (fv : Json) (d : String),
      pyGet fv "type" (.str "unknown") = .ok (.str "date") →
      pyGet fv "valueDate" .null = .ok (.str d) →
      renderField name fv = .ok ("  " ++ name ++ ": " ++ d))
    ∧ (∀ (name : String) (fv : Json),
      pyGet fv "type" (.str "unknown") = .ok (.str "object") →
      renderField name fv = .ok ("  " ++ name ++ ": [object]"))
    ∧ (∀ (name : String) (fv : Json) (t : String),
      pyGet fv "type" (.str "unknown") = .ok (.str t) →
      t ≠ "string" → t ≠ "number" → t ≠ "date" → t ≠ "array" → t ≠ "object" →
      renderField name fv = .ok ("  " ++ name ++ ": (" ++ t ++ ")")) := by
  refine ⟨rfl, rfl, ?_, ?_, ?_, ?_⟩
  · intro name fv xs hty harr
    simp [renderField, hty, harr, pyEqStr, pyLen]
  · intro name fv d hty hd
    simp [renderField, hty, hd, pyEqStr, pyStr]
  · intro name fv hty
    simp [renderField, hty, pyEqStr]
  · intro name fv t hty h1 h2 h3 h4 h5
    simp [renderField, hty, pyEqStr, h1, h2, h3, h4, h5, pyStr]

/-- Witness for C5 at a concrete array, date, object and unknown-typed
field value. -/
theorem field_rendering_witness :
    renderField "Items" (.obj [("type", .str "array"),
        ("valueArray", .arr [.str "a", .str "b"])]) = .ok "  Items: [2 items]"
    ∧ renderField "Due" (.obj [("type", .str "date"),
        ("valueDate", .str "2024-01-31")]) = .ok "  Due: 2024-01-31"
    ∧ renderField "Address" (.obj [("type", .str "object")]) = .ok "  Address: [object]"
    ∧ renderField "Other" (.obj [("type", .str "currency")]) = .ok "  Other: (currency)" := by
  refine ⟨?_, ?_, ?_, ?_⟩
  · exact field_rendering.2.2.1 "Items"
      (.obj [("type", .str "array"), ("valueArray", .arr [.str "a", .str "b"])])
      [.str "a", .str "b"] rfl rfl
  · exact field_rendering.2.2.2.1 "Due"
      (.obj [("type", .str "date"), ("valueDate", .str "2024-01-31")]) "2024-01-31" rfl rfl
  · exact field_rendering.2.2.2.2.1 "Address" (.obj [("type", .str "object")]) rfl
  · exact field_rendering.2.2.2.2.2 "Other" (.obj [("type", .str "currency")]) "currency"
      rfl (by simp) (by simp) (by simp) (by simp) (by simp)

/-! ## C6: empty-fields diagnostics vs the no-content branch -/

/-- The line printed by the generic no-content-items branch (line 152). -/
def noContentLine : String := "\n⚠️  No content items returned!"

/-- The no-content line differs from every `Extracted N content item(s)`
line. -/
theorem sentinel_ne_extracted (a b : String) :
    "\n⚠️  No content items returned!" ≠ ("Extracted " ++ a) ++ b := by
  intro he
  rw [String.append_assoc] at he
  exact append_ne_of_not_prefix _ (by decide) he.symm

/-- ... and from every fields-count header line. -/
theorem sentinel_ne_fieldsHeader (a b : String) :
    "\n⚠️  No content items returned!" ≠ ("\n📊 Extracted " ++ a) ++ b := by
  intro he
  rw [String.append_assoc] at he
  exact append_ne_of_not_prefix _ (by decide) he.symm

/-- ... and from every rendered field line (they start with two spaces). -/
theorem sentinel_ne_fieldline (t : String) :
    "\n⚠️  No content items returned!" ≠ "  " ++ t := by
  intro he
  exact append_ne_of_not_prefix _ (by decide) he.symm

/-- ... and from the does-not-match-the-analyzer-type diagnostic line. -/
theorem sentinel_ne_doesnt (a b : String) :
    "\n⚠️  No content items returned!" ≠ ("   - The document format doesn" ++ a) ++ b := by
  intro he
  rw [String.append_assoc] at he
  exact append_ne_of_not_prefix _ (by decide) he.symm

/-- ... and from the `Content kind` diagnostic line. -/
theorem sentinel_ne_kind (a b c d x : String) :
    "\n⚠️  No content items returned!" ≠ (((("\n   Content " ++ a) ++ b) ++ c) ++ d) ++ x := by
  intro he
  rw [String.append_assoc, String.append_assoc, String.append_assoc,
    String.append_assoc] at he
  exact append_ne_of_not_prefix _ (by decide) he.symm

/-- ... and from the `Pages:` diagnostic line. -/
theorem sentinel_ne_pages (x y : String) :
    "\n⚠️  No content items returned!" ≠ (("   Pages: " ++ x) ++ " - ") ++ y := by
  intro he
  rw [String.append_assoc, String.append_assoc] at he
  exact append_ne_of_not_prefix _ (by decide) he.symm

/-- ... and from the `Available content keys:` diagnostic line. -/
theorem sentinel_ne_keys (x : String) :
    "\n⚠️  No content items returned!" ≠ "\n   Available content keys: " ++ x := by
  intro he
  exact append_ne_of_not_prefix _ (by decide) he.symm

/-- ... and from the 60-dash separator line. -/
theorem sentinel_ne_dashes : "\n⚠️  No content items returned!" ≠ dashes := by
  decide

/-- Every line the field loop renders starts with two spaces. -/
theorem renderField_starts (k : String) (v : Json) (line : String)
    (h : renderField k v = .ok line) : ∃ t, line = "  " ++ t := by
  unfold renderField at h
  repeat' split at h
  all_goals simp only [Except.ok.injEq, reduceCtorEq] at h
  all_goals exact ⟨_, by rw [← h]; simp only [String.append_assoc]; rfl⟩

/-- The field loop never prints the no-content line. -/
theorem printFields_no_sentinel (items : List (String × Json)) :
    Event.print noContentLine ∉ (printFields items).1 := by
  induction items with
  | nil => simp [printFields]
  | cons kv rest ih =>
    obtain ⟨k, v⟩ := kv
    simp only [printFields]
    cases hr : renderField k v with
    | error e => simp
    | ok line =>
      obtain ⟨t, ht⟩ := renderField_starts k v line hr
      simp only [List.mem_cons, Event.print.injEq]
      rintro (he | he)
      · exact sentinel_ne_fieldline t (ht ▸ he)
      · exact ih he

/-- A falsy sized value has length 0. -/
theorem pyLen_falsy_zero (c : Json) (n : Nat) (hl : pyLen c = .ok n)
    (ht : pyTruthy c = false) : n = 0 := by
  cases c <;> simp_all [pyLen, pyTruthy]

/-- **C6.** A first content item with an empty (or absent) `fields`
mapping but truthy `markdown` (or `text`) takes the empty-fields
diagnostic branch: the reporter prints that grounding content is present
and field extraction failed, along with the kind of the content, page range
and key list — and not the generic no-content line, which is printed only
when the computed `contents` value is empty (length 0). -/
theorem empty_fields_diagnostics :
    (∀ (r : Json) (ckvs : List (String × Json)) (rest : List Json),
      contentsOf r = .ok (.arr (.obj ckvs :: rest)) →
      (assocGet ckvs "fields").getD (.obj []) = .obj [] →
      (pyTruthy ((assocGet ckvs "markdown").getD .null)
        || pyTruthy ((assocGet ckvs "text").getD .null)) = true →
      Event.print "\n   ✓ Grounding content (OCR/text) IS present" ∈ (main_report r).1
      ∧ Event.print "   → The document was read, but field extraction failed"
          ∈ (main_report r).1
      ∧ Event.print ("\n   Content " ++ apos ++ "kind" ++ apos ++ ": "
          ++ pyStr ((assocGet ckvs "kind").getD .null)) ∈ (main_report r).1
      ∧ Event.print ("   Pages: " ++ pyStr ((assocGet ckvs "startPageNumber").getD .null)
          ++ " - " ++ pyStr ((assocGet ckvs "endPageNumber").getD .null)) ∈ (main_report r).1
      ∧ Event.print ("\n   Available content keys: "
          ++ pyRepr (.arr ((ckvs.map (·.1)).map Json.str))) ∈ (main_report r).1
      ∧ Event.print noContentLine ∉ (main_report r).1)
    ∧ (∀ r : Json, Event.print noContentLine ∈ (main_report r).1 →
      ∃ c, contentsOf r = .ok c ∧ pyLen c = .ok 0) := by
  constructor
  · intro r ckvs rest hc hf hmd
    obtain ⟨result, hr, hc2⟩ : ∃ result, pyGet r "result" r = .ok result
        ∧ pyGet result "contents" (.arr []) = .ok (.arr (.obj ckvs :: rest)) := by
      unfold contentsOf at hc
      cases hr : pyGet r "result" r with
      | error e => rw [hr] at hc; simp at hc
      | ok result =>
        rw [hr] at hc
        exact ⟨result, rfl, hc⟩
    have h1 : pyTruthy (Json.arr (Json.obj ckvs :: rest)) = true := by simp [pyTruthy]
    have h2 : pyTruthy (Json.obj []) = false := by simp [pyTruthy]
    simp only [main_report, hr, hc2, pyLen, pySub0, h1, if_true]
    simp only [pyGet, pyKeys, hf, h2, hmd, Bool.false_eq_true, if_false, if_true]
    refine ⟨by simp, by simp, by simp, by simp, by simp, ?_⟩
    simp only [List.mem_append, List.mem_cons, Event.print.injEq, List.mem_singleton,
      not_or, List.not_mem_nil]
    refine ⟨?_, ?_⟩ <;>
      simp [noContentLine, sentinel_ne_extracted, sentinel_ne_doesnt, sentinel_ne_kind,
        sentinel_ne_pages, sentinel_ne_keys]
  · intro r hmem
    cases hr : pyGet r "result" r with
    | error e => simp [main_report, hr, noContentLine] at hmem
    | ok result =>
    cases hc : pyGet result "contents" (.arr []) with
    | error e => simp [main_report, hr, hc, noContentLine] at hmem
    | ok contents =>
    cases hl : pyLen contents with
    | error e => simp [main_report, hr, hc, hl, noContentLine] at hmem
    | ok n =>
    by_cases htr : pyTruthy contents = true
    · cases hs : pySub0 contents with
      | error e =>
        simp [main_report, hr, hc, hl, htr, hs, noContentLine, sentinel_ne_extracted] at hmem
      | ok first =>
      cases hfv : pyGet first "fields" (.obj []) with
      | error e =>
        simp [main_report, hr, hc, hl, htr, hs, hfv, noContentLine,
          sentinel_ne_extracted] at hmem
      | ok fields =>
      by_cases hft : pyTruthy fields = true
      · cases hfl : pyLen fields with
        | error e =>
          simp [main_report, hr, hc, hl, htr, hs, hfv, hft, hfl, noContentLine,
            sentinel_ne_extracted] at hmem
        | ok flen =>
        cases hit : pyItems fields with
        | error e =>
          simp [main_report, hr, hc, hl, htr, hs, hfv, hft, hfl, hit, noContentLine,
            sentinel_ne_extracted, sentinel_ne_fieldsHeader, sentinel_ne_dashes] at hmem
        | ok items =>
          simp only [main_report, hr, hc, hl, htr, hs, hfv, hft, hfl, hit,
            if_true] at hmem
          simp [noContentLine, sentinel_ne_extracted, sentinel_ne_fieldsHeader,
            sentinel_ne_dashes, List.mem_append] at hmem
          exact absurd (by simpa [noContentLine] using hmem) (printFields_no_sentinel items)
      · cases hk : pyGet first "kind" Json.null with
        | error e =>
          simp [main_report, hr, hc, hl, htr, hs, hfv, hft, hk, noContentLine,
            sentinel_ne_extracted, sentinel_ne_doesnt] at hmem
        | ok kind =>
        cases hsp : pyGet first "startPageNumber" Json.null with
        | error e =>
          simp [main_report, hr, hc, hl, htr, hs, hfv, hft, hk, hsp, noContentLine,
            sentinel_ne_extracted, sentinel_ne_doesnt, sentinel_ne_kind] at hmem
        | ok sp =>
        cases hep : pyGet first "endPageNumber" Json.null with
        | error e =>
          simp [main_report, hr, hc, hl, htr, hs, hfv, hft, hk, hsp, hep, noContentLine,
            sentinel_ne_extracted, sentinel_ne_doesnt, sentinel_ne_kind] at hmem
        | ok ep =>
        cases hmdv : pyGet first "markdown" Json.null with
        | error e =>
          simp [main_report, hr, hc, hl, htr, hs, hfv, hft, hk, hsp, hep, hmdv,
            noContentLine, sentinel_ne_extracted, sentinel_ne_doesnt, sentinel_ne_kind,
            sentinel_ne_pages] at hmem
        | ok md =>
        cases htxv : pyGet first "text" Json.null with
        | error e =>
          simp [main_report, hr, hc, hl, htr, hs, hfv, hft, hk, hsp, hep, hmdv, htxv,
            noContentLine, sentinel_ne_extracted, sentinel_ne_doesnt, sentinel_ne_kind,
            sentinel_ne_pages] at hmem
        | ok tx =>
        cases hky : pyKeys first with
        | error e =>
          simp only [main_report, hr, hc, hl, htr, hs, hfv, hft, hk, hsp, hep, hmdv, htxv,
            hky, if_true, Bool.false_eq_true, if_false] at hmem
          split at hmem <;>
            simp [noContentLine, sentinel_ne_extracted, sentinel_ne_doesnt, sentinel_ne_kind,
              sentinel_ne_pages] at hmem
        | ok keys =>
          simp only [main_report, hr, hc, hl, htr, hs, hfv, hft, hk, hsp, hep, hmdv, htxv,
            hky, if_true, Bool.false_eq_true, if_false] at hmem
          split at hmem <;>
            simp [noContentLine, sentinel_ne_extracted, sentinel_ne_doesnt, sentinel_ne_kind,
              sentinel_ne_pages, sentinel_ne_keys] at hmem
    · refine ⟨contents, by simp [contentsOf, hr, hc], ?_⟩
      have hz := pyLen_falsy_zero contents n hl (by simpa using htr)
      rw [hl, hz]

/-- Witness for C6 at a concrete result with empty fields and markdown
text. -/
theorem empty_fields_diagnostics_witness :
    Event.print "\n   ✓ Grounding content (OCR/text) IS present"
        ∈ (main_report (.obj [("result", .obj [("contents", .arr [.obj
          [("kind", .str "document"), ("fields", .obj []),
           ("markdown", .str "# Invoice")]])])])).1
    ∧ Event.print noContentLine
        ∉ (main_report (.obj [("result", .obj [("contents", .arr [.obj
          [("kind", .str "document"), ("fields", .obj []),
           ("markdown", .str "# Invoice")]])])])).1 := by
  have h := (empty_fields_diagnostics.1
    (.obj [("result", .obj [("contents", .arr [.obj
      [("kind", .str "document"), ("fields", .obj []),
       ("markdown", .str "# Invoice")]])])])
    [("kind", .str "document"), ("fields", .obj []), ("markdown", .str "# Invoice")]
    [] rfl rfl (by simp [assocGet, pyTruthy]))
  exact ⟨h.1, h.2.2.2.2.2⟩

end ContentUnderstanding
